import Mathlib

/-!
Verification development for the `dg_edge_updater` repository.

The repository is a self-update agent for a single service binary
(`src/lib.rs`, `src/main.rs`).  We give a shallow embedding: the three
filesystem slots (live binary, backup, staged download) are modelled as an
explicit record of optional files, every fallible external operation
(network, `systemctl`, filesystem primitives) is driven by an explicit
environment of outcomes, and each operation additionally records the
observable events it performs (subprocess calls, filesystem operations,
sleeps, log lines) in a trace.  `runMain` is the embedding of `main`.
-/

namespace DgEdgeUpdater

/-- Semantic version `(major, minor, patch)`, the shape used by the updater
(`semver::Version` restricted to the plain versions the system compares). -/
structure Version where
  major : Nat
  minor : Nat
  patch : Nat
deriving DecidableEq, Repr

/-- Strict semantic-version order: lexicographic on (major, minor, patch). -/
def Version.lt (a b : Version) : Bool :=
  decide (a.major < b.major ∨ (a.major = b.major ∧
    (a.minor < b.minor ∨ (a.minor = b.minor ∧ a.patch < b.patch))))

/-- Non-strict semantic-version order. -/
def Version.le (a b : Version) : Bool :=
  Version.lt a b || decide (a = b)

/-- The sentinel version `0.0.0` used when no local version can be resolved
(`Version::new(0, 0, 0)` in `main.rs`). -/
def v000 : Version := { major := 0, minor := 0, patch := 0 }

/-- A file on disk: abstract content plus its executable permission bit. -/
structure File where
  content : Nat
  exec : Bool
deriving DecidableEq, Repr

/-- The three fixed paths of the updater, as slots:
`BIN_PATH` (live), `BACKUP_PATH` (backup), `TMP_PATH` (staged). -/
inductive Slot where
  | live
  | backup
  | tmp
deriving DecidableEq, Repr

/-- The filesystem state restricted to the three paths the updater touches. -/
structure FS where
  live : Option File
  backup : Option File
  tmp : Option File
deriving DecidableEq, Repr

/-- Observable events performed by a run, in order. -/
inductive Event where
  | downloadEv (ok : Bool)
  | setExecEv (ok : Bool)
  | systemctlEv (action : String) (ok : Bool)
  | sleepEv (secs : Nat)
  | removeFileEv (s : Slot)
  | renameEv (src dst : Slot) (ok : Bool)
  | copyEv (src dst : Slot) (ok : Bool)
  | logInfo (msg : String)
  | logError (msg : String)
deriving DecidableEq, Repr

/-- Errors, one constructor per error site of the source. -/
inductive UErr where
  | fetchManifestFailed
  | invalidRemoteVersion
  | unsupportedPlatform
  | downloadFailed
  | setExecFailed
  | readDownloadedVersionFailed
  | downloadedVersionMismatch
  | systemctlFailed (action : String)
  | renameFailed (src dst : Slot)
  | copyFailed
deriving DecidableEq, Repr

/-- Environment of external outcomes for one run: network results, the
version each binary reports when executed, the platform architecture, and
injected success/failure of each fallible external primitive.  `startOk k`
is the outcome of the k-th `systemctl start` invocation (0-based: the three
loop attempts are calls 0,1,2 and the post-rollback attempt is call 3). -/
structure Env where
  fetchOk : Bool
  manifestVersion : String
  parseRemote : Option Version
  binVersion : Nat → Option Version
  arch : String
  downloadOk : Bool
  downloadedBin : Nat
  setExecOk : Bool
  stopOk : Bool
  startOk : Nat → Bool
  renameSwapOk : Bool
  copyOk : Bool
  renameRollbackOk : Bool

/-- `get_binary_version` (lib.rs:52): run the binary at a path with
`--version` and parse its stdout.  A missing or non-executable file fails to
run; `env.binVersion` gives the parse result of an executed binary's output
(`none` = non-zero exit or unparsable output). -/
def get_binary_version (env : Env) (file : Option File) : Option Version :=
  match file with
  | none => none
  | some f => if f.exec then env.binVersion f.content else none

/-- The local version as resolved in `main.rs:29-31`:
`get_binary_version(BIN_PATH).unwrap_or(Version::new(0,0,0))`. -/
def local_version_of (env : Env) (fs : FS) : Version :=
  (get_binary_version env fs.live).getD v000

/-- `run_systemctl` (lib.rs:61): invoke `systemctl <action> druid_garden_os`
and fail on non-zero exit. -/
def run_systemctl (ok : Bool) (action : String) : Except UErr Unit × List Event :=
  if ok then (Except.ok (), [Event.systemctlEv action true])
  else (Except.error (UErr.systemctlFailed action), [Event.systemctlEv action false])

/-- `get_download_url` (lib.rs:98): build the per-architecture URL, mapping
`x86_64` to `amd64`, keeping `aarch64`, and rejecting everything else. -/
def get_download_url (arch : String) (version : String) : Except UErr String :=
  if arch = "x86_64" then
    Except.ok ("https://os.druid.garden/" ++ version ++ "/" ++ "amd64" ++ "/druid-garden-os.app")
  else if arch = "aarch64" then
    Except.ok ("https://os.druid.garden/" ++ version ++ "/" ++ arch ++ "/druid-garden-os.app")
  else
    Except.error UErr.unsupportedPlatform

/-- `download_file` (lib.rs:76) specialised to `TMP_PATH` as in `main.rs:40`:
on success the staged slot holds the downloaded bytes (a fresh file is not
executable); on failure the request never completed. -/
def download_file (env : Env) (fs : FS) : Except UErr Unit × FS × List Event :=
  if env.downloadOk then
    (Except.ok (), { fs with tmp := some { content := env.downloadedBin, exec := false } },
      [Event.downloadEv true])
  else
    (Except.error UErr.downloadFailed, fs, [Event.downloadEv false])

/-- `set_executable_bit` (lib.rs:116) specialised to `TMP_PATH` as in
`main.rs:41`: reading metadata of a missing file fails; otherwise set mode
0o755 (the exec bit), which the filesystem may refuse. -/
def set_executable_bit (env : Env) (fs : FS) : Except UErr Unit × FS × List Event :=
  match fs.tmp with
  | none => (Except.error UErr.setExecFailed, fs, [Event.setExecEv false])
  | some f =>
    if env.setExecOk then
      (Except.ok (), { fs with tmp := some { f with exec := true } }, [Event.setExecEv true])
    else
      (Except.error UErr.setExecFailed, fs, [Event.setExecEv false])

/-- `swap_binaries` (lib.rs:44): delete a pre-existing backup (result
ignored), rename the live binary to the backup path (`?`), then copy the
staged binary into the live path.  A rename fails when its source is
missing or when the environment refuses it (`renameSwapOk`); a copy fails
when its source is missing or the environment refuses it (`copyOk`). -/
def swap_binaries (env : Env) (fs : FS) : Except UErr Unit × FS × List Event :=
  let pre : FS × List Event :=
    if (fs.backup).isSome then ({ fs with backup := none }, [Event.removeFileEv Slot.backup])
    else (fs, [])
  match pre.1.live with
  | none =>
    (Except.error (UErr.renameFailed Slot.live Slot.backup), pre.1,
      pre.2 ++ [Event.renameEv Slot.live Slot.backup false])
  | some f =>
    if env.renameSwapOk then
      let fs2 : FS := { pre.1 with live := none, backup := some f }
      match fs2.tmp with
      | none =>
        (Except.error UErr.copyFailed, fs2,
          pre.2 ++ [Event.renameEv Slot.live Slot.backup true, Event.copyEv Slot.tmp Slot.live false])
      | some g =>
        if env.copyOk then
          (Except.ok (), { fs2 with live := some g },
            pre.2 ++ [Event.renameEv Slot.live Slot.backup true, Event.copyEv Slot.tmp Slot.live true])
        else
          (Except.error UErr.copyFailed, fs2,
            pre.2 ++ [Event.renameEv Slot.live Slot.backup true, Event.copyEv Slot.tmp Slot.live false])
    else
      (Except.error (UErr.renameFailed Slot.live Slot.backup), pre.1,
        pre.2 ++ [Event.renameEv Slot.live Slot.backup false])

/-- The `for attempt in 1..=3` loop of `try_start_with_rollback`
(lib.rs:128-134): log, attempt a start, return on success, otherwise sleep
2 seconds and continue.  Returns whether some attempt succeeded, and the
trace. -/
def start_loop_aux (startOk : Nat → Bool) (attempt : Nat) : Nat → Bool × List Event
  | 0 => (false, [])
  | fuel + 1 =>
    let ok := startOk (attempt - 1)
    let evs := [Event.logInfo ("Starting service (attempt " ++ toString attempt ++ ")…"),
      Event.systemctlEv "start" ok]
    if ok then (true, evs)
    else
      let r := start_loop_aux startOk (attempt + 1) fuel
      (r.1, evs ++ Event.sleepEv 2 :: r.2)

/-- The remaining iterations `attempt..3` of the loop: `4 - attempt` more
iterations are left when the loop is entered at `attempt`. -/
def start_loop (startOk : Nat → Bool) (attempt : Nat) : Bool × List Event :=
  start_loop_aux startOk attempt (4 - attempt)

/-- The rollback tail of `try_start_with_rollback` (lib.rs:135-143): log,
best-effort delete of the live slot (result ignored), rename the backup
into the live slot (`?`, fails when the backup is missing or the
environment refuses it), then one final start attempt (call index 3). -/
def rollback_phase (env : Env) (fs : FS) : Except UErr Bool × FS × List Event :=
  let evs0 := [Event.logInfo "Rolling back to backup…", Event.removeFileEv Slot.live]
  let fs1 : FS := { fs with live := none }
  match fs1.backup with
  | none =>
    (Except.error (UErr.renameFailed Slot.backup Slot.live), fs1,
      evs0 ++ [Event.renameEv Slot.backup Slot.live false])
  | some f =>
    if env.renameRollbackOk then
      let fs2 : FS := { fs1 with backup := none, live := some f }
      if env.startOk 3 then
        (Except.ok true, fs2,
          evs0 ++ [Event.renameEv Slot.backup Slot.live true, Event.systemctlEv "start" true,
            Event.logInfo "Rollback succeeded"])
      else
        (Except.ok false, fs2,
          evs0 ++ [Event.renameEv Slot.backup Slot.live true, Event.systemctlEv "start" false])
    else
      (Except.error (UErr.renameFailed Slot.backup Slot.live), fs1,
        evs0 ++ [Event.renameEv Slot.backup Slot.live false])

/-- `try_start_with_rollback` (lib.rs:127): the bounded retry loop, then the
rollback tail if every attempt failed. -/
def try_start_with_rollback (env : Env) (fs : FS) : Except UErr Bool × FS × List Event :=
  match start_loop env.startOk 1 with
  | (true, evs) => (Except.ok true, fs, evs)
  | (false, evs) =>
    let r := rollback_phase env fs
    (r.1, r.2.1, evs ++ r.2.2)

/-- The tail of `main` after a successful swap (main.rs:62-67): run
`try_start_with_rollback`, propagate its error, log "Update successful!" on
`Ok(true)` and the critical line on `Ok(false)`; both of the latter return
`Ok(())`. -/
def finish_phase (env : Env) (fs : FS) (evs : List Event) : Except UErr Unit × FS × List Event :=
  let ts := try_start_with_rollback env fs
  match ts.1 with
  | Except.error e => (Except.error e, ts.2.1, evs ++ ts.2.2)
  | Except.ok true =>
    (Except.ok (), ts.2.1, evs ++ ts.2.2 ++ [Event.logInfo "Update successful!"])
  | Except.ok false =>
    (Except.ok (), ts.2.1, evs ++ ts.2.2 ++ [Event.logError "CRITICAL UPDATE FAILURE - PLEASE REBOOT DEVICE"])

/-- `main` (main.rs): fetch the manifest, parse the remote version, resolve
the local version (defaulting to 0.0.0), stop if up to date, build the URL,
download and mark executable, verify the downloaded binary's version, stop
the service, swap, then start with retry and rollback. -/
def runMain (env : Env) (fs0 : FS) : Except UErr Unit × FS × List Event :=
  if env.fetchOk then
    match env.parseRemote with
    | none => (Except.error UErr.invalidRemoteVersion, fs0, [])
    | some remote_version =>
      let local_version := local_version_of env fs0
      if Version.le remote_version local_version then
        (Except.ok (), fs0, [Event.logInfo "Up to date! nothing to do."])
      else
        match get_download_url env.arch env.manifestVersion with
        | Except.error e => (Except.error e, fs0, [])
        | Except.ok _ =>
          let d := download_file env fs0
          match d.1 with
          | Except.error e => (Except.error e, d.2.1, d.2.2)
          | Except.ok _ =>
            let s := set_executable_bit env d.2.1
            match s.1 with
            | Except.error e => (Except.error e, s.2.1, d.2.2 ++ s.2.2)
            | Except.ok _ =>
              match get_binary_version env s.2.1.tmp with
              | none => (Except.error UErr.readDownloadedVersionFailed, s.2.1, d.2.2 ++ s.2.2)
              | some downloaded_version =>
                if downloaded_version ≠ remote_version then
                  (Except.error UErr.downloadedVersionMismatch, s.2.1, d.2.2 ++ s.2.2)
                else
                  let st := run_systemctl env.stopOk "stop"
                  match st.1 with
                  | Except.error e => (Except.error e, s.2.1, d.2.2 ++ s.2.2 ++ st.2)
                  | Except.ok _ =>
                    let sw := swap_binaries env s.2.1
                    match sw.1 with
                    | Except.error e =>
                      (Except.error e, sw.2.1, d.2.2 ++ s.2.2 ++ st.2 ++ sw.2.2)
                    | Except.ok _ =>
                      finish_phase env sw.2.1 (d.2.2 ++ s.2.2 ++ st.2 ++ sw.2.2)
  else
    (Except.error UErr.fetchManifestFailed, fs0, [])

/-! ## Helper definitions and lemmas -/

/-- The log line emitted before start attempt `n`. -/
def attemptLog (n : Nat) : Event :=
  Event.logInfo ("Starting service (attempt " ++ toString n ++ ")…")

/-- The trace of the start loop when all three attempts fail. -/
def loop_fail_trace : List Event :=
  [attemptLog 1, Event.systemctlEv "start" false, Event.sleepEv 2,
   attemptLog 2, Event.systemctlEv "start" false, Event.sleepEv 2,
   attemptLog 3, Event.systemctlEv "start" false, Event.sleepEv 2]

lemma start_loop_one (s : Nat → Bool) :
    start_loop s 1 =
      if s 0 then (true, [attemptLog 1, Event.systemctlEv "start" true])
      else if s 1 then
        (true, [attemptLog 1, Event.systemctlEv "start" false, Event.sleepEv 2,
          attemptLog 2, Event.systemctlEv "start" true])
      else if s 2 then
        (true, [attemptLog 1, Event.systemctlEv "start" false, Event.sleepEv 2,
          attemptLog 2, Event.systemctlEv "start" false, Event.sleepEv 2,
          attemptLog 3, Event.systemctlEv "start" true])
      else (false, loop_fail_trace) := by
  by_cases h0 : s 0 <;> by_cases h1 : s 1 <;> by_cases h2 : s 2 <;>
    simp [start_loop, start_loop_aux, h0, h1, h2, attemptLog, loop_fail_trace]

/-- A concrete benign environment: remote version 1.2.3, local binary
(content 5) reporting 1.0.0, downloaded binary (content 7) reporting 1.2.3,
every external operation succeeding. -/
def envA : Env := {
  fetchOk := true
  manifestVersion := "1.2.3"
  parseRemote := some { major := 1, minor := 2, patch := 3 }
  binVersion := fun c =>
    if c = 7 then some { major := 1, minor := 2, patch := 3 }
    else if c = 5 then some { major := 1, minor := 0, patch := 0 }
    else none
  arch := "x86_64"
  downloadOk := true
  downloadedBin := 7
  setExecOk := true
  stopOk := true
  startOk := fun _ => true
  renameSwapOk := true
  copyOk := true
  renameRollbackOk := true }

/-- A concrete initial filesystem: an executable live binary, no backup, no
staged file. -/
def fsA : FS := { live := some { content := 5, exec := true }, backup := none, tmp := none }

lemma version_le_false_iff (a b : Version) :
    Version.le a b = false ↔ Version.lt b a = true := by
  rcases a with ⟨a1, a2, a3⟩
  rcases b with ⟨b1, b2, b3⟩
  simp only [Version.le, Version.lt, Bool.or_eq_false_iff, decide_eq_false_iff_not,
    decide_eq_true_eq, Version.mk.injEq]
  constructor
  · intro h
    rcases h with ⟨h1, h2⟩
    omega
  · intro h
    constructor <;> omega

lemma swap_no_logs (env : Env) (fs : FS) (m : String) :
    Event.logInfo m ∉ (swap_binaries env fs).2.2 := by
  by_cases hb : (fs.backup).isSome <;>
    rcases hl : fs.live with _ | f <;>
      by_cases hr : env.renameSwapOk <;>
        rcases ht : fs.tmp with _ | g <;>
          by_cases hc : env.copyOk <;>
            simp [swap_binaries, hb, hl, hr, ht, hc]

lemma rollback_no_uptodate (env : Env) (fs : FS) :
    Event.logInfo "Up to date! nothing to do." ∉ (rollback_phase env fs).2.2 := by
  rcases hb : fs.backup with _ | f
  · simp [rollback_phase, hb]
  · by_cases hr : env.renameRollbackOk <;> by_cases hs : env.startOk 3 <;>
      simp [rollback_phase, hb, hr, hs]

lemma try_start_no_uptodate (env : Env) (fs : FS) :
    Event.logInfo "Up to date! nothing to do." ∉ (try_start_with_rollback env fs).2.2 := by
  have hrb := rollback_no_uptodate env fs
  by_cases h0 : env.startOk 0 <;> by_cases h1 : env.startOk 1 <;> by_cases h2 : env.startOk 2 <;>
    simp [try_start_with_rollback, start_loop_one, h0, h1, h2, loop_fail_trace, attemptLog,
      hrb] <;>
    decide

lemma try_start_live_exec (env : Env) (fs : FS) (hrb : env.renameRollbackOk = true)
    (hl : ∃ g, fs.live = some g ∧ g.exec = true)
    (hb : ∃ h, fs.backup = some h ∧ h.exec = true) :
    ∃ g, (try_start_with_rollback env fs).2.1.live = some g ∧ g.exec = true := by
  rcases hl with ⟨g0, hgeq, hge⟩
  rcases hb with ⟨h, hbeq, hbe⟩
  by_cases h0 : env.startOk 0 <;> by_cases h1 : env.startOk 1 <;> by_cases h2 : env.startOk 2 <;>
    by_cases h3 : env.startOk 3 <;>
      simp [try_start_with_rollback, start_loop_one, rollback_phase, h0, h1, h2, h3,
        hbeq, hbe, hgeq, hge, hrb]

lemma finish_phase_live (env : Env) (fs : FS) (evs : List Event) :
    (finish_phase env fs evs).2.1 = (try_start_with_rollback env fs).2.1 := by
  rcases hts : (try_start_with_rollback env fs).1 with e | b
  · simp [finish_phase, hts]
  · rcases b <;> simp [finish_phase, hts]

lemma finish_phase_no_uptodate (env : Env) (fs : FS) (evs : List Event)
    (hevs : Event.logInfo "Up to date! nothing to do." ∉ evs) :
    Event.logInfo "Up to date! nothing to do." ∉ (finish_phase env fs evs).2.2 := by
  have hts' := try_start_no_uptodate env fs
  rcases hts : (try_start_with_rollback env fs).1 with e | b
  · simp [finish_phase, hts, hevs]
    intro hmem
    exact hts' hmem
  · rcases b <;> simp [finish_phase, hts, hevs] <;> intro hmem <;> exact hts' hmem

lemma post_gate_facts (env : Env) (fs0 : FS) (rv : Version)
    (hf : env.fetchOk = true) (hp : env.parseRemote = some rv)
    (hle : Version.le rv (local_version_of env fs0) = false) :
    (Event.logInfo "Up to date! nothing to do." ∉ (runMain env fs0).2.2) ∧
    (∀ f, fs0.live = some f → f.exec = true →
      env.renameSwapOk = true → env.copyOk = true → env.renameRollbackOk = true →
      ∃ g, (runMain env fs0).2.1.live = some g ∧ g.exec = true) := by
  rcases hu : get_download_url env.arch env.manifestVersion with e | u
  · have hrm : runMain env fs0 = (Except.error e, fs0, []) := by
      simp [runMain, hf, hp, hle, hu]
    rw [hrm]
    exact ⟨by simp, fun f hf' he _ _ _ => ⟨f, hf', he⟩⟩
  · by_cases hd : env.downloadOk
    case neg =>
      have hrm : runMain env fs0 = (Except.error UErr.downloadFailed, fs0,
          [Event.downloadEv false]) := by
        simp [runMain, download_file, hf, hp, hle, hu, hd]
      rw [hrm]
      exact ⟨by simp, fun f hf' he _ _ _ => ⟨f, hf', he⟩⟩
    case pos =>
      by_cases hx : env.setExecOk
      case neg =>
        have hrm : runMain env fs0 = (Except.error UErr.setExecFailed,
            { fs0 with tmp := some { content := env.downloadedBin, exec := false } },
            [Event.downloadEv true, Event.setExecEv false]) := by
          simp [runMain, download_file, set_executable_bit, hf, hp, hle, hu, hd, hx]
        rw [hrm]
        exact ⟨by simp, fun f hf' he _ _ _ => ⟨f, by simp [hf'], he⟩⟩
      case pos =>
        rcases hv : env.binVersion env.downloadedBin with _ | dv
        · have hrm : runMain env fs0 = (Except.error UErr.readDownloadedVersionFailed,
              { fs0 with tmp := some { content := env.downloadedBin, exec := true } },
              [Event.downloadEv true, Event.setExecEv true]) := by
            simp [runMain, download_file, set_executable_bit, get_binary_version,
              hf, hp, hle, hu, hd, hx, hv]
          rw [hrm]
          exact ⟨by simp, fun f hf' he _ _ _ => ⟨f, by simp [hf'], he⟩⟩
        · by_cases hdv : dv = rv
          case neg =>
            have hrm : runMain env fs0 = (Except.error UErr.downloadedVersionMismatch,
                { fs0 with tmp := some { content := env.downloadedBin, exec := true } },
                [Event.downloadEv true, Event.setExecEv true]) := by
              simp [runMain, download_file, set_executable_bit, get_binary_version,
                hf, hp, hle, hu, hd, hx, hv, hdv]
            rw [hrm]
            exact ⟨by simp, fun f hf' he _ _ _ => ⟨f, by simp [hf'], he⟩⟩
          case pos =>
            by_cases hst : env.stopOk
            case neg =>
              have hrm : runMain env fs0 = (Except.error (UErr.systemctlFailed "stop"),
                  { fs0 with tmp := some { content := env.downloadedBin, exec := true } },
                  [Event.downloadEv true, Event.setExecEv true,
                    Event.systemctlEv "stop" false]) := by
                simp [runMain, download_file, set_executable_bit, get_binary_version,
                  run_systemctl, hf, hp, hle, hu, hd, hx, hv, hdv, hst]
              rw [hrm]
              exact ⟨by simp, fun f hf' he _ _ _ => ⟨f, by simp [hf'], he⟩⟩
            case pos =>
              rcases hlv : fs0.live with _ | f0
              · by_cases hbk : (fs0.backup).isSome
                case pos =>
                  have hrm : runMain env fs0 = (Except.error (UErr.renameFailed Slot.live Slot.backup),
                      { live := none, backup := none,
                        tmp := some { content := env.downloadedBin, exec := true } },
                      [Event.downloadEv true, Event.setExecEv true, Event.systemctlEv "stop" true,
                        Event.removeFileEv Slot.backup,
                        Event.renameEv Slot.live Slot.backup false]) := by
                    simp [runMain, download_file, set_executable_bit, get_binary_version,
                      run_systemctl, swap_binaries, hf, hp, hle, hu, hd, hx, hv, hdv, hst,
                      hlv, hbk]
                  rw [hrm]
                  refine ⟨by simp, fun f hf' he _ _ _ => ?_⟩
                  simp at hf'
                case neg =>
                  have hrm : runMain env fs0 = (Except.error (UErr.renameFailed Slot.live Slot.backup),
                      { fs0 with tmp := some { content := env.downloadedBin, exec := true } },
                      [Event.downloadEv true, Event.setExecEv true, Event.systemctlEv "stop" true,
                        Event.renameEv Slot.live Slot.backup false]) := by
                    simp [runMain, download_file, set_executable_bit, get_binary_version,
                      run_systemctl, swap_binaries, hf, hp, hle, hu, hd, hx, hv, hdv, hst,
                      hlv, hbk]
                  rw [hrm]
                  refine ⟨by simp, fun f hf' he _ _ _ => ?_⟩
                  simp at hf'
              · by_cases hrs : env.renameSwapOk
                case neg =>
                  by_cases hbk : (fs0.backup).isSome
                  case pos =>
                    have hrm : runMain env fs0 = (Except.error (UErr.renameFailed Slot.live Slot.backup),
                        { live := fs0.live, backup := none,
                          tmp := some { content := env.downloadedBin, exec := true } },
                        [Event.downloadEv true, Event.setExecEv true, Event.systemctlEv "stop" true,
                          Event.removeFileEv Slot.backup,
                          Event.renameEv Slot.live Slot.backup false]) := by
                      simp [runMain, download_file, set_executable_bit, get_binary_version,
                        run_systemctl, swap_binaries, hf, hp, hle, hu, hd, hx, hv, hdv, hst,
                        hlv, hrs, hbk]
                    rw [hrm]
                    refine ⟨by simp, fun f hf' he hrs' _ _ => ?_⟩
                    exact absurd hrs' hrs
                  case neg =>
                    have hrm : runMain env fs0 = (Except.error (UErr.renameFailed Slot.live Slot.backup),
                        { fs0 with tmp := some { content := env.downloadedBin, exec := true } },
                        [Event.downloadEv true, Event.setExecEv true, Event.systemctlEv "stop" true,
                          Event.renameEv Slot.live Slot.backup false]) := by
                      simp [runMain, download_file, set_executable_bit, get_binary_version,
                        run_systemctl, swap_binaries, hf, hp, hle, hu, hd, hx, hv, hdv, hst,
                        hlv, hrs, hbk]
                    rw [hrm]
                    refine ⟨by simp, fun f hf' he hrs' _ _ => ?_⟩
                    exact absurd hrs' hrs
                case pos =>
                  by_cases hcp : env.copyOk
                  case neg =>
                    by_cases hbk : (fs0.backup).isSome
                    case pos =>
                      have hrm : runMain env fs0 = (Except.error UErr.copyFailed,
                          { live := none, backup := some f0,
                            tmp := some { content := env.downloadedBin, exec := true } },
                          [Event.downloadEv true, Event.setExecEv true, Event.systemctlEv "stop" true,
                            Event.removeFileEv Slot.backup,
                            Event.renameEv Slot.live Slot.backup true,
                            Event.copyEv Slot.tmp Slot.live false]) := by
                        simp [runMain, download_file, set_executable_bit, get_binary_version,
                          run_systemctl, swap_binaries, hf, hp, hle, hu, hd, hx, hv, hdv, hst,
                          hlv, hrs, hcp, hbk]
                      rw [hrm]
                      refine ⟨by simp, fun f hf' he _ hcp' _ => ?_⟩
                      exact absurd hcp' hcp
                    case neg =>
                      have hrm : runMain env fs0 = (Except.error UErr.copyFailed,
                          { live := none, backup := some f0,
                            tmp := some { content := env.downloadedBin, exec := true } },
                          [Event.downloadEv true, Event.setExecEv true, Event.systemctlEv "stop" true,
                            Event.renameEv Slot.live Slot.backup true,
                            Event.copyEv Slot.tmp Slot.live false]) := by
                        simp [runMain, download_file, set_executable_bit, get_binary_version,
                          run_systemctl, swap_binaries, hf, hp, hle, hu, hd, hx, hv, hdv, hst,
                          hlv, hrs, hcp, hbk]
                      rw [hrm]
                      refine ⟨by simp, fun f hf' he _ hcp' _ => ?_⟩
                      exact absurd hcp' hcp
                  case pos =>
                    by_cases hbk : (fs0.backup).isSome
                    case pos =>
                      have hrm : runMain env fs0 = finish_phase env
                          { live := some { content := env.downloadedBin, exec := true },
                            backup := some f0,
                            tmp := some { content := env.downloadedBin, exec := true } }
                          [Event.downloadEv true, Event.setExecEv true, Event.systemctlEv "stop" true,
                            Event.removeFileEv Slot.backup,
                            Event.renameEv Slot.live Slot.backup true,
                            Event.copyEv Slot.tmp Slot.live true] := by
                        simp [runMain, download_file, set_executable_bit, get_binary_version,
                          run_systemctl, swap_binaries, hf, hp, hle, hu, hd, hx, hv, hdv, hst,
                          hlv, hrs, hcp, hbk]
                      rw [hrm]
                      refine ⟨finish_phase_no_uptodate _ _ _ (by decide),
                        fun f hf' he _ _ hrrb => ?_⟩
                      rw [finish_phase_live]
                      refine try_start_live_exec _ _ hrrb ⟨_, rfl, rfl⟩ ⟨f0, rfl, ?_⟩
                      injection hf' with h
                      rw [h]
                      exact he
                    case neg =>
                      have hrm : runMain env fs0 = finish_phase env
                          { live := some { content := env.downloadedBin, exec := true },
                            backup := some f0,
                            tmp := some { content := env.downloadedBin, exec := true } }
                          [Event.downloadEv true, Event.setExecEv true, Event.systemctlEv "stop" true,
                            Event.renameEv Slot.live Slot.backup true,
                            Event.copyEv Slot.tmp Slot.live true] := by
                        simp [runMain, download_file, set_executable_bit, get_binary_version,
                          run_systemctl, swap_binaries, hf, hp, hle, hu, hd, hx, hv, hdv, hst,
                          hlv, hrs, hcp, hbk]
                      rw [hrm]
                      refine ⟨finish_phase_no_uptodate _ _ _ (by decide),
                        fun f hf' he _ _ hrrb => ?_⟩
                      rw [finish_phase_live]
                      refine try_start_live_exec _ _ hrrb ⟨_, rfl, rfl⟩ ⟨f0, rfl, ?_⟩
                      injection hf' with h
                      rw [h]
                      exact he

/-! ## Claims -/

/-- C1: In the start phase after a swap, the coordinator makes exactly 3
start attempts with the new binary in place, each separated by a fixed
2-second wait, and triggers rollback only after all 3 attempts have failed;
for every attempt k in 1..3, if attempt k succeeds, no attempt k+1 is made,
no rollback occurs, and the run reports success.  Each conjunct pins down
the full behavior (result, final filesystem, exact event trace) of
`try_start_with_rollback` for first success at attempt 1, 2, 3, and for
three failures; the success traces contain no rollback events and end at
the successful attempt, and rollback events appear only after the three
failed attempts. -/
theorem c1_start_retry_policy (env : Env) (fs : FS) :
    (env.startOk 0 = true →
      try_start_with_rollback env fs =
        (Except.ok true, fs, [attemptLog 1, Event.systemctlEv "start" true])) ∧
    (env.startOk 0 = false → env.startOk 1 = true →
      try_start_with_rollback env fs =
        (Except.ok true, fs, [attemptLog 1, Event.systemctlEv "start" false, Event.sleepEv 2,
          attemptLog 2, Event.systemctlEv "start" true])) ∧
    (env.startOk 0 = false → env.startOk 1 = false → env.startOk 2 = true →
      try_start_with_rollback env fs =
        (Except.ok true, fs, [attemptLog 1, Event.systemctlEv "start" false, Event.sleepEv 2,
          attemptLog 2, Event.systemctlEv "start" false, Event.sleepEv 2,
          attemptLog 3, Event.systemctlEv "start" true])) ∧
    (env.startOk 0 = false → env.startOk 1 = false → env.startOk 2 = false →
      try_start_with_rollback env fs =
        ((rollback_phase env fs).1, (rollback_phase env fs).2.1,
          loop_fail_trace ++ (rollback_phase env fs).2.2)) := by
  refine ⟨fun h0 => ?_, fun h0 h1 => ?_, fun h0 h1 h2 => ?_, fun h0 h1 h2 => ?_⟩
  · simp [try_start_with_rollback, start_loop_one, h0]
  · simp [try_start_with_rollback, start_loop_one, h0, h1]
  · simp [try_start_with_rollback, start_loop_one, h0, h1, h2]
  · simp [try_start_with_rollback, start_loop_one, h0, h1, h2]

/-- Witness for C1: with the first start attempt failing and the second
succeeding, the run stops after attempt 2 with no rollback. -/
theorem c1_start_retry_policy_w :
    try_start_with_rollback { envA with startOk := fun k => k = 1 } fsA =
      (Except.ok true, fsA, [attemptLog 1, Event.systemctlEv "start" false, Event.sleepEv 2,
        attemptLog 2, Event.systemctlEv "start" true]) :=
  (c1_start_retry_policy { envA with startOk := fun k => k = 1 } fsA).2.1 rfl rfl

/-- C10: when all 3 start attempts with the new binary fail, a further
2-second wait elapses after the third failed attempt — the trace of the
loop ends in `sleepEv 2` — before the rollback's delete-and-rename of the
live slot begins (`rollback_phase`'s trace starts with the rolling-back log
and the delete of the live slot). -/
theorem c10_sleep_after_last_attempt (env : Env) (fs : FS)
    (h0 : env.startOk 0 = false) (h1 : env.startOk 1 = false) (h2 : env.startOk 2 = false) :
    ((try_start_with_rollback env fs).2.2 =
      loop_fail_trace ++ (rollback_phase env fs).2.2) ∧
    (∃ rest, (rollback_phase env fs).2.2 =
      Event.logInfo "Rolling back to backup…" :: Event.removeFileEv Slot.live :: rest) := by
  constructor
  · simp [try_start_with_rollback, start_loop_one, h0, h1, h2]
  · rcases hb : fs.backup with _ | f
    · exact ⟨[Event.renameEv Slot.backup Slot.live false], by simp [rollback_phase, hb]⟩
    · by_cases hr : env.renameRollbackOk
      · by_cases hs : env.startOk 3
        · exact ⟨[Event.renameEv Slot.backup Slot.live true, Event.systemctlEv "start" true,
            Event.logInfo "Rollback succeeded"], by simp [rollback_phase, hb, hr, hs]⟩
        · exact ⟨[Event.renameEv Slot.backup Slot.live true, Event.systemctlEv "start" false],
            by simp [rollback_phase, hb, hr, hs]⟩
      · exact ⟨[Event.renameEv Slot.backup Slot.live false], by simp [rollback_phase, hb, hr]⟩

/-- Witness for C10 at a concrete environment where every start fails. -/
theorem c10_sleep_after_last_attempt_w :
    (((try_start_with_rollback { envA with startOk := fun _ => false } fsA).2.2 =
      loop_fail_trace ++ (rollback_phase { envA with startOk := fun _ => false } fsA).2.2) ∧
    (∃ rest, (rollback_phase { envA with startOk := fun _ => false } fsA).2.2 =
      Event.logInfo "Rolling back to backup…" :: Event.removeFileEv Slot.live :: rest)) :=
  c10_sleep_after_last_attempt { envA with startOk := fun _ => false } fsA rfl rfl rfl

/-- C5: the swap performs its steps in fixed order.  (1) A pre-existing
backup is silently deleted first: swapping with a backup present behaves
exactly like swapping with the backup already gone, except for the leading
delete event — a pre-existing backup never causes an error.  (2) If the
rename of the live binary fails, the swap fails, the live slot is left
untouched, and no copy was performed — no write touches the live path
before the rename.  (3) On the successful-rename path the trace is exactly
rename-then-copy.  (4) A fully successful swap moves the live binary to the
backup slot and copies (does not move) the staged binary into the live
slot, leaving the staged file in place. -/
theorem c5_swap_ordering :
    (∀ env fs b, fs.backup = some b →
      swap_binaries env fs =
        ((swap_binaries env { fs with backup := none }).1,
         (swap_binaries env { fs with backup := none }).2.1,
         Event.removeFileEv Slot.backup :: (swap_binaries env { fs with backup := none }).2.2)) ∧
    (∀ env fs, (fs.live = none ∨ env.renameSwapOk = false) →
      (swap_binaries env fs).1 = Except.error (UErr.renameFailed Slot.live Slot.backup) ∧
      (swap_binaries env fs).2.1.live = fs.live ∧
      (∀ s d b, Event.copyEv s d b ∉ (swap_binaries env fs).2.2)) ∧
    (∀ env fs f, fs.backup = none → fs.live = some f → env.renameSwapOk = true →
      (swap_binaries env fs).2.2 =
        [Event.renameEv Slot.live Slot.backup true,
         Event.copyEv Slot.tmp Slot.live ((fs.tmp).isSome && env.copyOk)]) ∧
    (∀ env fs f g, fs.live = some f → fs.tmp = some g →
        env.renameSwapOk = true → env.copyOk = true →
      swap_binaries env fs =
        (Except.ok (), { live := some g, backup := some f, tmp := some g },
         (if (fs.backup).isSome then [Event.removeFileEv Slot.backup] else []) ++
           [Event.renameEv Slot.live Slot.backup true, Event.copyEv Slot.tmp Slot.live true])) := by
  refine ⟨?_, ?_, ?_, ?_⟩
  · intro env fs b hb
    rcases hl : fs.live with _ | f <;>
      by_cases hr : env.renameSwapOk <;>
        rcases ht : fs.tmp with _ | g <;>
          by_cases hc : env.copyOk <;>
            simp [swap_binaries, hb, hl, hr, ht, hc]
  · intro env fs h
    by_cases hb : (fs.backup).isSome
    · rcases h with hl | hr
      · simp [swap_binaries, hb, hl]
      · rcases hl : fs.live with _ | f <;> simp [swap_binaries, hb, hl, hr]
    · rcases h with hl | hr
      · simp [swap_binaries, hb, hl]
      · rcases hl : fs.live with _ | f <;> simp [swap_binaries, hb, hl, hr]
  · intro env fs f hb hl hr
    rcases ht : fs.tmp with _ | g <;>
      by_cases hc : env.copyOk <;>
        simp [swap_binaries, hb, hl, hr, ht, hc]
  · intro env fs f g hl ht hr hc
    by_cases hb : (fs.backup).isSome <;>
      simp [swap_binaries, hb, hl, ht, hr, hc]

/-- Witness for C5: a concrete successful swap with a pre-existing backup,
exercising conjunct (4). -/
theorem c5_swap_ordering_w :
    swap_binaries envA
      { live := some { content := 5, exec := true },
        backup := some { content := 9, exec := true },
        tmp := some { content := 7, exec := true } } =
      (Except.ok (),
       { live := some { content := 7, exec := true },
         backup := some { content := 5, exec := true },
         tmp := some { content := 7, exec := true } },
       (if (Option.some { content := 9, exec := true } : Option File).isSome then
          [Event.removeFileEv Slot.backup] else []) ++
         [Event.renameEv Slot.live Slot.backup true, Event.copyEv Slot.tmp Slot.live true]) :=
  c5_swap_ordering.2.2.2 envA
    { live := some { content := 5, exec := true },
      backup := some { content := 9, exec := true },
      tmp := some { content := 7, exec := true } }
    { content := 5, exec := true } { content := 7, exec := true } rfl rfl rfl rfl

/-- C7: the update transaction proceeds past the version check iff
remote > local under strict semantic-version ordering.  When the remote
version is less than or equal to the local one, the run terminates
immediately as a normal success whose only observable action is the
"up to date" report: no download, swap, or service call is performed and
the filesystem is untouched.  When remote > local the run does not take
the up-to-date exit.  The gate `¬(remote ≤ local)` used by the code is
equivalent to `local < remote` in the strict order. -/
theorem c7_version_gate (env : Env) (fs0 : FS) (rv : Version)
    (hf : env.fetchOk = true) (hp : env.parseRemote = some rv) :
    (Version.le rv (local_version_of env fs0) = true →
      runMain env fs0 = (Except.ok (), fs0, [Event.logInfo "Up to date! nothing to do."])) ∧
    (Version.le rv (local_version_of env fs0) = false →
      Event.logInfo "Up to date! nothing to do." ∉ (runMain env fs0).2.2) ∧
    (Version.le rv (local_version_of env fs0) = false ↔
      Version.lt (local_version_of env fs0) rv = true) := by
  refine ⟨fun hle => ?_, fun hle => (post_gate_facts env fs0 rv hf hp hle).1,
    version_le_false_iff rv (local_version_of env fs0)⟩
  simp [runMain, hf, hp, hle]

/-- Witness for C7: with remote 1.2.3 against local 1.0.0 the gate is open
and the up-to-date exit is not taken. -/
theorem c7_version_gate_w :
    (Version.le { major := 1, minor := 2, patch := 3 } (local_version_of envA fsA) = true →
      runMain envA fsA = (Except.ok (), fsA, [Event.logInfo "Up to date! nothing to do."])) ∧
    (Version.le { major := 1, minor := 2, patch := 3 } (local_version_of envA fsA) = false →
      Event.logInfo "Up to date! nothing to do." ∉ (runMain envA fsA).2.2) ∧
    (Version.le { major := 1, minor := 2, patch := 3 } (local_version_of envA fsA) = false ↔
      Version.lt (local_version_of envA fsA) { major := 1, minor := 2, patch := 3 } = true) :=
  c7_version_gate envA fsA { major := 1, minor := 2, patch := 3 } rfl rfl

/-- C8: the download-URL construction is total and rejecting over the
architecture identifier: `x86_64` maps to `amd64` in the URL, `aarch64`
maps to `aarch64`, and every other architecture fails with
`UnsupportedPlatform`; in a run on an unsupported architecture no download
(the only network call after the manifest fetch) is ever performed. -/
theorem c8_arch_mapping :
    (∀ v, get_download_url "x86_64" v =
      Except.ok ("https://os.druid.garden/" ++ v ++ "/" ++ "amd64" ++ "/druid-garden-os.app")) ∧
    (∀ v, get_download_url "aarch64" v =
      Except.ok ("https://os.druid.garden/" ++ v ++ "/" ++ "aarch64" ++ "/druid-garden-os.app")) ∧
    (∀ a v, a ≠ "x86_64" → a ≠ "aarch64" →
      get_download_url a v = Except.error UErr.unsupportedPlatform) ∧
    (∀ env fs0 b, env.arch ≠ "x86_64" → env.arch ≠ "aarch64" →
      Event.downloadEv b ∉ (runMain env fs0).2.2) := by
  refine ⟨fun v => by simp [get_download_url], fun v => by simp [get_download_url],
    fun a v ha1 ha2 => by simp [get_download_url, ha1, ha2], ?_⟩
  intro env fs0 b ha1 ha2
  by_cases hf : env.fetchOk
  · rcases hp : env.parseRemote with _ | rv
    · simp [runMain, hf, hp]
    · by_cases hle : Version.le rv (local_version_of env fs0) = true
      · simp [runMain, hf, hp, hle]
      · have hu : get_download_url env.arch env.manifestVersion =
            Except.error UErr.unsupportedPlatform := by
          simp [get_download_url, ha1, ha2]
        simp [runMain, hf, hp, hle, hu]
  · simp [runMain, hf]

/-- Witness for C8: the rejecting case at a concrete unsupported
architecture, and the no-network-call case in a concrete run. -/
theorem c8_arch_mapping_w :
    get_download_url "riscv64" "1.2.3" = Except.error UErr.unsupportedPlatform ∧
    (Event.downloadEv true ∉ (runMain { envA with arch := "riscv64" } fsA).2.2) :=
  ⟨c8_arch_mapping.2.2.1 "riscv64" "1.2.3" (by decide) (by decide),
   c8_arch_mapping.2.2.2 { envA with arch := "riscv64" } fsA true (by decide) (by decide)⟩

/-- C9: local version resolution never fails the run.  A missing live
binary resolves to `none`, a binary whose invocation fails or whose output
is unparsable resolves to `none`, `main` turns `none` into the sentinel
0.0.0, and a first install (no prior binary) with remote > 0.0.0 does not
take the up-to-date exit. -/
theorem c9_local_version_resolution :
    (∀ env, get_binary_version env none = none) ∧
    (∀ env c e, env.binVersion c = none →
      get_binary_version env (some { content := c, exec := e }) = none) ∧
    (∀ env fs, fs.live = none → local_version_of env fs = v000) ∧
    (∀ env fs rv, fs.live = none → env.fetchOk = true → env.parseRemote = some rv →
      Version.lt v000 rv = true →
      Event.logInfo "Up to date! nothing to do." ∉ (runMain env fs).2.2) := by
  refine ⟨fun env => rfl, fun env c e h => ?_, fun env fs h => ?_, fun env fs rv hl hf hp hgt => ?_⟩
  · rcases e <;> simp [get_binary_version, h]
  · simp [local_version_of, get_binary_version, h]
  · have hlv : local_version_of env fs = v000 := by
      simp [local_version_of, get_binary_version, hl]
    have hle : Version.le rv (local_version_of env fs) = false := by
      rw [hlv]
      exact (version_le_false_iff rv v000).mpr hgt
    exact (post_gate_facts env fs rv hf hp hle).1

/-- Witness for C9: a first-install run (no live binary) with remote 1.2.3
does not take the up-to-date exit. -/
theorem c9_local_version_resolution_w :
    Event.logInfo "Up to date! nothing to do." ∉
      (runMain envA { live := none, backup := none, tmp := none }).2.2 :=
  c9_local_version_resolution.2.2.2 envA { live := none, backup := none, tmp := none }
    { major := 1, minor := 2, patch := 3 } rfl rfl rfl (by decide)

/-- C6: if the staged binary's reported version differs from the manifest's
remote version, the run fails with the verification error before any swap
and before the service is stopped: the result is the mismatch error, the
live and backup slots are untouched, and the trace contains no `systemctl`
stop call, no rename and no copy. -/
theorem c6_artifact_verification (env : Env) (fs0 : FS) (rv dv : Version)
    (hf : env.fetchOk = true) (hp : env.parseRemote = some rv)
    (hle : Version.le rv (local_version_of env fs0) = false)
    (harch : env.arch = "x86_64" ∨ env.arch = "aarch64")
    (hd : env.downloadOk = true) (hx : env.setExecOk = true)
    (hv : env.binVersion env.downloadedBin = some dv) (hne : dv ≠ rv) :
    runMain env fs0 = (Except.error UErr.downloadedVersionMismatch,
      { fs0 with tmp := some { content := env.downloadedBin, exec := true } },
      [Event.downloadEv true, Event.setExecEv true]) ∧
    (runMain env fs0).2.1.live = fs0.live ∧
    (runMain env fs0).2.1.backup = fs0.backup ∧
    (∀ b, Event.systemctlEv "stop" b ∉ (runMain env fs0).2.2) ∧
    (∀ s d b, Event.renameEv s d b ∉ (runMain env fs0).2.2) ∧
    (∀ s d b, Event.copyEv s d b ∉ (runMain env fs0).2.2) := by
  have hrm : runMain env fs0 = (Except.error UErr.downloadedVersionMismatch,
      { fs0 with tmp := some { content := env.downloadedBin, exec := true } },
      [Event.downloadEv true, Event.setExecEv true]) := by
    rcases harch with h | h <;>
      simp [runMain, download_file, set_executable_bit, get_binary_version, get_download_url,
        hf, hp, hle, h, hd, hx, hv, hne]
  refine ⟨hrm, ?_, ?_, ?_, ?_, ?_⟩ <;> rw [hrm] <;> simp

/-- Witness for C6: remote version 1.2.3 but the downloaded binary (content
5) reports 1.0.0 — the run stops at verification with all slots of the live
binary untouched. -/
theorem c6_artifact_verification_w :
    runMain { envA with downloadedBin := 5 } fsA = (Except.error UErr.downloadedVersionMismatch,
      { fsA with tmp := some { content := 5, exec := true } },
      [Event.downloadEv true, Event.setExecEv true]) ∧
    (runMain { envA with downloadedBin := 5 } fsA).2.1.live = fsA.live ∧
    (runMain { envA with downloadedBin := 5 } fsA).2.1.backup = fsA.backup ∧
    (∀ b, Event.systemctlEv "stop" b ∉ (runMain { envA with downloadedBin := 5 } fsA).2.2) ∧
    (∀ s d b, Event.renameEv s d b ∉ (runMain { envA with downloadedBin := 5 } fsA).2.2) ∧
    (∀ s d b, Event.copyEv s d b ∉ (runMain { envA with downloadedBin := 5 } fsA).2.2) :=
  c6_artifact_verification { envA with downloadedBin := 5 } fsA
    { major := 1, minor := 2, patch := 3 } { major := 1, minor := 0, patch := 0 }
    rfl rfl (by decide) (Or.inl rfl) rfl rfl rfl (by decide)

lemma runMain_reaches_finish (env : Env) (fs0 : FS) (f : File) (rv : Version)
    (hf : env.fetchOk = true) (hp : env.parseRemote = some rv)
    (hle : Version.le rv (local_version_of env fs0) = false)
    (harch : env.arch = "x86_64" ∨ env.arch = "aarch64")
    (hd : env.downloadOk = true) (hx : env.setExecOk = true)
    (hv : env.binVersion env.downloadedBin = some rv)
    (hst : env.stopOk = true) (hlv : fs0.live = some f)
    (hrs : env.renameSwapOk = true) (hcp : env.copyOk = true) :
    runMain env fs0 = finish_phase env
      { live := some { content := env.downloadedBin, exec := true },
        backup := some f,
        tmp := some { content := env.downloadedBin, exec := true } }
      ([Event.downloadEv true, Event.setExecEv true, Event.systemctlEv "stop" true] ++
        (if (fs0.backup).isSome then [Event.removeFileEv Slot.backup] else []) ++
        [Event.renameEv Slot.live Slot.backup true, Event.copyEv Slot.tmp Slot.live true]) := by
  by_cases hbk : (fs0.backup).isSome <;>
    rcases harch with h | h <;>
      simp [runMain, download_file, set_executable_bit, get_binary_version, run_systemctl,
        swap_binaries, get_download_url, hf, hp, hle, h, hd, hx, hv, hst, hlv, hrs, hcp, hbk]

/-- C2 counterexample: in a run where the swap succeeds, all 3 start
attempts fail, and the rollback's rename fails, the run terminates with the
propagated rename error and the distinguished critical marker
("CRITICAL UPDATE FAILURE - PLEASE REBOOT DEVICE", the only output of the
code that distinguishes a critical outcome) is NOT emitted: the rename
error propagates out of `main` through `?` exactly like any ordinary
failure, contradicting the claim that the run reports the distinguished
critical outcome. -/
theorem c2_critical_marker_cex :
    (runMain { envA with startOk := fun _ => false, renameRollbackOk := false } fsA).1 =
      Except.error (UErr.renameFailed Slot.backup Slot.live) ∧
    Event.logError "CRITICAL UPDATE FAILURE - PLEASE REBOOT DEVICE" ∉
      (runMain { envA with startOk := fun _ => false, renameRollbackOk := false } fsA).2.2 := by
  constructor
  · rfl
  · decide

/-- C2 amended: if all 3 post-swap start attempts fail and the rollback's
rename itself also fails, the run terminates with the rename error
propagated as an ordinary failure — the distinguished critical marker is
not emitted — and the coordinator attempts no further rollback: the failed
rename is the last action of the run. -/
theorem c2_rollback_rename_failure_amended (env : Env) (fs0 : FS) (f : File) (rv : Version)
    (hf : env.fetchOk = true) (hp : env.parseRemote = some rv)
    (hle : Version.le rv (local_version_of env fs0) = false)
    (harch : env.arch = "x86_64" ∨ env.arch = "aarch64")
    (hd : env.downloadOk = true) (hx : env.setExecOk = true)
    (hv : env.binVersion env.downloadedBin = some rv)
    (hst : env.stopOk = true) (hlv : fs0.live = some f)
    (hrs : env.renameSwapOk = true) (hcp : env.copyOk = true)
    (h0 : env.startOk 0 = false) (h1 : env.startOk 1 = false) (h2 : env.startOk 2 = false)
    (hrrb : env.renameRollbackOk = false) :
    (runMain env fs0).1 = Except.error (UErr.renameFailed Slot.backup Slot.live) ∧
    Event.logError "CRITICAL UPDATE FAILURE - PLEASE REBOOT DEVICE" ∉ (runMain env fs0).2.2 ∧
    (runMain env fs0).2.2.getLast? = some (Event.renameEv Slot.backup Slot.live false) := by
  have hrm := runMain_reaches_finish env fs0 f rv hf hp hle harch hd hx hv hst hlv hrs hcp
  have hts : try_start_with_rollback env
      { live := some { content := env.downloadedBin, exec := true },
        backup := some f,
        tmp := some { content := env.downloadedBin, exec := true } } =
      (Except.error (UErr.renameFailed Slot.backup Slot.live),
       { live := none, backup := some f,
         tmp := some { content := env.downloadedBin, exec := true } },
       loop_fail_trace ++
         [Event.logInfo "Rolling back to backup…", Event.removeFileEv Slot.live,
          Event.renameEv Slot.backup Slot.live false]) := by
    simp [try_start_with_rollback, start_loop_one, rollback_phase, h0, h1, h2, hrrb]
  refine ⟨?_, ?_, ?_⟩ <;> rw [hrm] <;>
    by_cases hbk : (fs0.backup).isSome <;>
      simp only [finish_phase, hts, hbk, loop_fail_trace, attemptLog, if_true, if_false,
        List.cons_append, List.nil_append, List.append_assoc, List.append_nil] <;>
      decide

/-- Witness for the amended C2 at a concrete environment. -/
theorem c2_rollback_rename_failure_amended_w :
    (runMain { envA with startOk := fun _ => false, renameRollbackOk := false }
        { live := some { content := 5, exec := true }, backup := none, tmp := none }).1 =
      Except.error (UErr.renameFailed Slot.backup Slot.live) ∧
    Event.logError "CRITICAL UPDATE FAILURE - PLEASE REBOOT DEVICE" ∉
      (runMain { envA with startOk := fun _ => false, renameRollbackOk := false }
        { live := some { content := 5, exec := true }, backup := none, tmp := none }).2.2 ∧
    (runMain { envA with startOk := fun _ => false, renameRollbackOk := false }
        { live := some { content := 5, exec := true }, backup := none, tmp := none }).2.2.getLast? =
      some (Event.renameEv Slot.backup Slot.live false) :=
  c2_rollback_rename_failure_amended
    { envA with startOk := fun _ => false, renameRollbackOk := false }
    { live := some { content := 5, exec := true }, backup := none, tmp := none }
    { content := 5, exec := true } { major := 1, minor := 2, patch := 3 }
    rfl rfl (by decide) (Or.inl rfl) rfl rfl rfl rfl rfl rfl rfl rfl rfl rfl rfl

/-- C4: when the 3 start attempts with the new binary all fail, the
rollback rename succeeds and the single post-rollback start succeeds, the
run terminates successfully with the rollback report "Rollback succeeded"
in its output — a report that an ordinary successful update (starts
succeeding immediately, same environment otherwise) never emits — and the
live slot again holds the pre-update binary while the backup slot is
empty. -/
theorem c4_rolled_back_outcome (env : Env) (fs0 : FS) (f : File) (rv : Version)
    (hf : env.fetchOk = true) (hp : env.parseRemote = some rv)
    (hle : Version.le rv (local_version_of env fs0) = false)
    (harch : env.arch = "x86_64" ∨ env.arch = "aarch64")
    (hd : env.downloadOk = true) (hx : env.setExecOk = true)
    (hv : env.binVersion env.downloadedBin = some rv)
    (hst : env.stopOk = true) (hlv : fs0.live = some f)
    (hrs : env.renameSwapOk = true) (hcp : env.copyOk = true)
    (h0 : env.startOk 0 = false) (h1 : env.startOk 1 = false) (h2 : env.startOk 2 = false)
    (hrrb : env.renameRollbackOk = true) (h3 : env.startOk 3 = true) :
    (runMain env fs0).1 = Except.ok () ∧
    (runMain env fs0).2.1.live = fs0.live ∧
    (runMain env fs0).2.1.backup = none ∧
    Event.logInfo "Rollback succeeded" ∈ (runMain env fs0).2.2 ∧
    Event.logInfo "Rollback succeeded" ∉
      (runMain { env with startOk := fun _ => true } fs0).2.2 := by
  have hrm := runMain_reaches_finish env fs0 f rv hf hp hle harch hd hx hv hst hlv hrs hcp
  have hts : try_start_with_rollback env
      { live := some { content := env.downloadedBin, exec := true },
        backup := some f,
        tmp := some { content := env.downloadedBin, exec := true } } =
      (Except.ok true,
       { live := some f, backup := none,
         tmp := some { content := env.downloadedBin, exec := true } },
       loop_fail_trace ++
         [Event.logInfo "Rolling back to backup…", Event.removeFileEv Slot.live,
          Event.renameEv Slot.backup Slot.live true, Event.systemctlEv "start" true,
          Event.logInfo "Rollback succeeded"]) := by
    simp [try_start_with_rollback, start_loop_one, rollback_phase, h0, h1, h2, hrrb, h3]
  have hrm' := runMain_reaches_finish { env with startOk := fun _ => true } fs0 f rv
    hf hp hle harch hd hx hv hst hlv hrs hcp
  have hts' : try_start_with_rollback { env with startOk := fun _ => true }
      { live := some { content := env.downloadedBin, exec := true },
        backup := some f,
        tmp := some { content := env.downloadedBin, exec := true } } =
      (Except.ok true,
       { live := some { content := env.downloadedBin, exec := true },
         backup := some f,
         tmp := some { content := env.downloadedBin, exec := true } },
       [attemptLog 1, Event.systemctlEv "start" true]) := by
    simp [try_start_with_rollback, start_loop_one]
  refine ⟨?_, ?_, ?_, ?_, ?_⟩
  · rw [hrm]
    simp [finish_phase, hts]
  · rw [hrm]
    simp [finish_phase, hts, hlv]
  · rw [hrm]
    simp [finish_phase, hts]
  · rw [hrm]
    simp [finish_phase, hts, loop_fail_trace]
  · rw [hrm']
    by_cases hbk : (fs0.backup).isSome <;>
      simp only [finish_phase, hts', hbk, if_true, if_false, List.cons_append,
        List.nil_append, List.append_assoc, List.append_nil, attemptLog] <;>
      decide

/-- Witness for C4: a concrete run where attempts 1-3 fail and the
post-rollback start succeeds. -/
theorem c4_rolled_back_outcome_w :
    (runMain { envA with startOk := fun k => k = 3 } fsA).1 = Except.ok () ∧
    (runMain { envA with startOk := fun k => k = 3 } fsA).2.1.live = fsA.live ∧
    (runMain { envA with startOk := fun k => k = 3 } fsA).2.1.backup = none ∧
    Event.logInfo "Rollback succeeded" ∈
      (runMain { envA with startOk := fun k => k = 3 } fsA).2.2 ∧
    Event.logInfo "Rollback succeeded" ∉
      (runMain { { envA with startOk := fun k => k = 3 } with startOk := fun _ => true } fsA).2.2 :=
  c4_rolled_back_outcome { envA with startOk := fun k => k = 3 } fsA
    { content := 5, exec := true } { major := 1, minor := 2, patch := 3 }
    rfl rfl (by decide) (Or.inl rfl) rfl rfl rfl rfl rfl rfl rfl rfl rfl rfl rfl rfl

/-- C3 counterexample: a first-install run (no live binary present) whose
download fails terminates with an ordinary non-critical error while the
live slot is missing — so it is not the case that every terminated run
either has an executable live binary or is flagged critical. -/
theorem c3_live_slot_invariant_cex :
    (runMain { envA with downloadOk := false }
        { live := none, backup := none, tmp := none }).2.1.live = none ∧
    (runMain { envA with downloadOk := false }
        { live := none, backup := none, tmp := none }).1 =
      Except.error UErr.downloadFailed ∧
    Event.logError "CRITICAL UPDATE FAILURE - PLEASE REBOOT DEVICE" ∉
      (runMain { envA with downloadOk := false }
        { live := none, backup := none, tmp := none }).2.2 := by
  refine ⟨rfl, rfl, ?_⟩
  decide

/-- C3 amended: for every run that begins with an executable binary in the
live slot and in which the filesystem primitives fail only when their
source is missing (no environment-injected rename/copy failure), after
termination the live slot resolves to an executable binary or the run is
flagged with the critical marker. -/
theorem c3_live_slot_invariant_amended (env : Env) (fs0 : FS) (f : File)
    (hlv : fs0.live = some f) (hfe : f.exec = true)
    (hrs : env.renameSwapOk = true) (hcp : env.copyOk = true)
    (hrrb : env.renameRollbackOk = true) :
    (∃ g, (runMain env fs0).2.1.live = some g ∧ g.exec = true) ∨
    Event.logError "CRITICAL UPDATE FAILURE - PLEASE REBOOT DEVICE" ∈ (runMain env fs0).2.2 := by
  left
  by_cases hf : env.fetchOk
  · rcases hp : env.parseRemote with _ | rv
    · have hrm : runMain env fs0 = (Except.error UErr.invalidRemoteVersion, fs0, []) := by
        simp [runMain, hf, hp]
      rw [hrm]
      exact ⟨f, hlv, hfe⟩
    · cases hle : Version.le rv (local_version_of env fs0)
      · exact (post_gate_facts env fs0 rv (by simp [hf]) hp hle).2 f hlv hfe hrs hcp hrrb
      · have hrm : runMain env fs0 =
            (Except.ok (), fs0, [Event.logInfo "Up to date! nothing to do."]) := by
          simp [runMain, hf, hp, hle]
        rw [hrm]
        exact ⟨f, hlv, hfe⟩
  · have hrm : runMain env fs0 = (Except.error UErr.fetchManifestFailed, fs0, []) := by
      simp [runMain, hf]
    rw [hrm]
    exact ⟨f, hlv, hfe⟩

/-- Witness for the amended C3 at a concrete benign run. -/
theorem c3_live_slot_invariant_amended_w :
    (∃ g, (runMain envA fsA).2.1.live = some g ∧ g.exec = true) ∨
    Event.logError "CRITICAL UPDATE FAILURE - PLEASE REBOOT DEVICE" ∈ (runMain envA fsA).2.2 :=
  c3_live_slot_invariant_amended envA fsA { content := 5, exec := true } rfl rfl rfl rfl rfl

end DgEdgeUpdater
